import Mathlib

/-!
Verification development for the core of vscode-as-git-mergetool.

Shallow embedding of:
* `TemporarySideBySideSettingsManager.activateSettings` / `resetSettings`
  (src/temporarySettingsManager.ts),
* `DiffLayouterManager.handleWasZoomRequested`, `switchLayout`,
  `openDiffedURIs`, `getLayoutFactory` (diffLayouterManager.ts),
* `ArbitraryFilesMerger.mergeArbitraryFiles` (arbitraryFilesMerger.ts),
* the `Monitor` mutual-exclusion primitive, modelled from the spec
  (its source file is not among the provided sources).

JavaScript data is modelled as follows: configuration and snapshot values
are primitives (booleans, strings, numbers, null, undefined), compared by
strict equality; a JavaScript object used as a string-keyed record is an
association list whose keys are unique (object construction cannot
produce duplicate keys); indexing an absent key yields `undefined`.
-/

/-- A JavaScript primitive value, as stored in configuration entries and
in the persisted snapshot objects.  `undef` models `undefined`, which is
also the result of indexing an absent object key. -/
inductive JSVal where
  | undef : JSVal
  | null : JSVal
  | bool : Bool → JSVal
  | str : String → JSVal
  | num : Int → JSVal
deriving DecidableEq

/-- The `StorageState` type of temporarySettingsManager.ts:
a JavaScript object mapping configuration-key strings to values,
modelled as an association list (entries in assignment order). -/
abbrev StorageState : Type := List (String × JSVal)

/-- First-match association-list lookup; models reading a property of a
JavaScript object (whose keys are unique, so first match is the match). -/
def alookup : StorageState → String → Option JSVal
  | [], _ => none
  | (k2, v) :: rest, k => if k2 = k then some v else alookup rest k

/-- JavaScript object indexing `m[k]`: the stored value, or `undefined`
when the key is absent. -/
def jsIdx (m : StorageState) (k : String) : JSVal :=
  (alookup m k).getD JSVal.undef

/-- The keys of a record object, in insertion order (`Object.keys`). -/
def objKeys (m : StorageState) : List String :=
  m.map Prod.fst

/-- Embeds `vSCodeConfigurator.set`: point update of the live configuration,
which is modelled as a total map defaulting to `undefined`. -/
def setCfg (cfg : String → JSVal) (k : String) (v : JSVal) : String → JSVal :=
  fun k2 => if k2 = k then v else cfg k2

/-- State visible to `TemporarySideBySideSettingsManager`: the live
configuration (read-after-write consistent) and the two durable storage
entries under `origActualKey` and `origTargetKey` (`none` = absent;
`getStorageState` turns an absent entry into the empty object). -/
structure SettingsState where
  config : String → JSVal
  origActualStore : Option StorageState
  origTargetStore : Option StorageState

/-- Embeds `getStorageState`: the stored object, defaulting to `{}` when the
storage entry is absent (not an object). -/
def getStorageState (s : Option StorageState) : StorageState :=
  s.getD []

/-- One iteration of the `for (const iD of this.targetIDs)` loop of
`activateSettings`, threading the live configuration and the two record
objects being built.  `entry` is the key `iD` together with
`this.targetSettings[iD]`. -/
def activateStep (oldOrigActual oldOrigTarget : StorageState)
    (acc : (String → JSVal) × StorageState × StorageState)
    (entry : String × JSVal) : (String → JSVal) × StorageState × StorageState :=
  let cfg := acc.1
  let newOrigActual := acc.2.1
  let newOrigTarget := acc.2.2
  let iD := entry.1
  let newTarget := entry.2
  let newActual := cfg iD
  let cfg2 := if newActual ≠ newTarget then setCfg cfg iD newTarget else cfg
  let newOrigActual2 := newOrigActual ++
    [(iD, if newActual = jsIdx oldOrigTarget iD
          then jsIdx oldOrigActual iD else newActual)]
  let newOrigTarget2 := newOrigTarget ++ [(iD, newTarget)]
  (cfg2, newOrigActual2, newOrigTarget2)

/-- The `obsoleteSettingKeys` set after the main loop: the keys of the
old `origActual` object with every current target key deleted, in
insertion order.  (The source builds a `Set` from `Object.keys`; object
keys are already unique.) -/
def obsoleteSettingKeys (oldOrigActual : StorageState)
    (targetIDs : List String) : List String :=
  (objKeys oldOrigActual).filter (fun k => ¬ k ∈ targetIDs)

/-- Embeds `TemporarySideBySideSettingsManager.activateSettings`, with the
injected `targetSettings` record as a parameter (the constructor default
is `defaultTargetSettings` below).  Monitor enter/leave brackets the
body; the serialized body is embedded directly. -/
def activateSettings (targetSettings : StorageState)
    (s : SettingsState) : SettingsState :=
  let oldOrigActual := getStorageState s.origActualStore
  let oldOrigTarget := getStorageState s.origTargetStore
  let r := targetSettings.foldl (activateStep oldOrigActual oldOrigTarget)
    (s.config, [], [])
  let cfg2 := (obsoleteSettingKeys oldOrigActual (objKeys targetSettings)).foldl
    (fun cfg iD => setCfg cfg iD (jsIdx oldOrigActual iD)) r.1
  { config := cfg2
    origActualStore := some r.2.1
    origTargetStore := some r.2.2 }

/-- Embeds `TemporarySideBySideSettingsManager.resetSettings`. -/
def resetSettings (s : SettingsState) : SettingsState :=
  let origActual := getStorageState s.origActualStore
  let origTarget := getStorageState s.origTargetStore
  let cfg2 := (objKeys origActual).foldl
    (fun cfg iD =>
      if cfg iD = jsIdx origTarget iD
      then setCfg cfg iD (jsIdx origActual iD) else cfg)
    s.config
  { config := cfg2
    origActualStore := none
    origTargetStore := none }

/-- The constructor-default `targetSettings` record of
`TemporarySideBySideSettingsManager`. -/
def defaultTargetSettings : StorageState :=
  [("diffEditor.renderSideBySide", JSVal.bool false),
   ("editor.lineNumbers", JSVal.str "none"),
   ("workbench.editor.showTabs", JSVal.bool false),
   ("editor.glyphMargin", JSVal.bool false),
   ("workbench.activityBar.visible", JSVal.bool false)]

/-! ## Monitor (modelled from the spec) -/

/-- Modelled from the spec: the Monitor async mutual-exclusion primitive
(src/monitor.ts is not among the provided sources).  Per spec section 3,
its state is an owned flag and a FIFO queue of suspended waiters; here
the owner is the list `holders` (proved to hold at most one element),
and `resumed` / `suspendedLog` are history variables recording, in
order, which waiters were suspended and which have been resumed. -/
structure MonitorState where
  holders : List Nat
  waiters : List Nat
  resumed : List Nat
  suspendedLog : List Nat
deriving DecidableEq

/-- An observable call on the Monitor: `enter tid` by logical caller
`tid`, or `leave` by the current holder. -/
inductive MonitorEvent where
  | enter : Nat → MonitorEvent
  | leave : MonitorEvent
deriving DecidableEq

/-- Embeds `Monitor.someoneIsWaiting`: synchronously, whether at least one
caller is currently suspended in `enter()`. -/
def someoneIsWaiting (s : MonitorState) : Bool :=
  !s.waiters.isEmpty

/-- Modelled from the spec: one Monitor transition.  `enter` by a caller
already holding or waiting is a re-entrancy violation (`none`, per spec
it deadlocks); `leave` without a holder is a programming error (`none`).
`enter` on a free lock acquires it, otherwise the caller is appended to
the FIFO queue; `leave` wakes the next waiter in FIFO order or marks the
lock free. -/
def monitorStep (s : MonitorState) : MonitorEvent → Option MonitorState
  | MonitorEvent.enter tid =>
    if tid ∈ s.holders ∨ tid ∈ s.waiters then none
    else if s.holders.isEmpty then
      some { s with holders := s.holders ++ [tid] }
    else
      some { s with waiters := s.waiters ++ [tid]
                    suspendedLog := s.suspendedLog ++ [tid] }
  | MonitorEvent.leave =>
    match s.holders with
    | [] => none
    | _ :: _ =>
      match s.waiters with
      | [] => some { s with holders := [] }
      | t :: rest =>
        some { s with holders := [t]
                      waiters := rest
                      resumed := s.resumed ++ [t] }

/-- The freshly constructed Monitor: free, nobody waiting. -/
def monitorInit : MonitorState :=
  { holders := [], waiters := [], resumed := [], suspendedLog := [] }

/-- Run a sequence of Monitor events from a given state; `none` when
some event is a usage violation. -/
def monitorRunFrom (s : MonitorState) : List MonitorEvent → Option MonitorState
  | [] => some s
  | e :: rest =>
    match monitorStep s e with
    | none => none
    | some s2 => monitorRunFrom s2 rest

/-- Run a sequence of Monitor events from the initial state. -/
def monitorRun (evs : List MonitorEvent) : Option MonitorState :=
  monitorRunFrom monitorInit evs

/-! ## DiffLayouterManager -/

/-- Modelled from the spec: the DiffedURIs content tuple (diffedURIs.ts
is not among the provided sources): ordered content sources
base/local/remote/merged plus an optional backup source; URIs are
modelled as strings. -/
structure DiffedURIs where
  base : String
  localSrc : String
  remote : String
  merged : String
  backup : Option String
deriving DecidableEq

/-- Modelled from the spec: `DiffedURIs.equalsWithoutBackup` compares
the content tuples ignoring backup-source identity. -/
def equalsWithoutBackup (a b : DiffedURIs) : Bool :=
  a.base == b.base && a.localSrc == b.localSrc
    && a.remote == b.remote && a.merged == b.merged

/-- A DiffLayouterFactory as used by diffLayouterManager.ts: identified
by its `settingValue`; the registry holds factories with pairwise
distinct setting values, so structural equality coincides with the
reference identity the source compares with. -/
structure Factory where
  settingValue : String
deriving DecidableEq

/-- A DiffLayouter as observed by the manager: its lifecycle flags and
its content tuple (the `diffedURIs` accessor of a constructed layouter
is always defined). -/
structure Layouter where
  isActivating : Bool
  isActive : Bool
  diffedURIs : DiffedURIs
deriving DecidableEq

/-- The manager state the embedded operations read and write: the
`layouter` and `layouterFactory` fields of DiffLayouterManager. -/
structure ManagerState where
  layouter : Option Layouter
  layouterFactory : Option Factory
deriving DecidableEq

/-- Embeds `DiffLayouterManager.activateLayouter`, abstracted over the external
layouter construction: after deactivating any old layouter it installs
the newly created layouter for `uris` (activation by `tryActivate` is an
external capability assumed to succeed) and records the new factory. -/
def activateLayouterState (uris : DiffedURIs) (f : Factory) : ManagerState :=
  { layouter := some { isActivating := false, isActive := true, diffedURIs := uris }
    layouterFactory := some f }

/-- Here `layouterIsActive layouter` is the value of
`this.layouter?.isActive === true` style checks: false when no layouter
is registered. -/
def layouterIsActive : Option Layouter → Bool
  | some ly => ly.isActive
  | none => false

/-- The error message of `handleWasZoomRequested` when no layout is
active. -/
def zoomActiveRequiredMsg : String :=
  "Diff layout must be active to use zoom commands."

/-- Observable effects of one `handleWasZoomRequested` call: the error
messages shown and the `layouter.setLayout` invocations performed. -/
structure ZoomHandling (Zm : Type) where
  errorMessages : List String
  setLayoutCalls : List Zm
deriving DecidableEq

/-- Embeds `DiffLayouterManager.handleWasZoomRequested`: after acquiring the
manager Monitor (state `m` at the moment of entry), a request is dropped
silently when `someoneIsWaiting`; otherwise it errors visibly when no
layouter is active, and otherwise forwards the zoom to
`layouter.setLayout`. -/
def handleWasZoomRequested (Zm : Type) (m : MonitorState)
    (layouter : Option Layouter) (zoom : Zm) : ZoomHandling Zm :=
  if someoneIsWaiting m then
    { errorMessages := [], setLayoutCalls := [] }
  else if !(layouterIsActive layouter) then
    { errorMessages := [zoomActiveRequiredMsg], setLayoutCalls := [] }
  else
    { errorMessages := [], setLayoutCalls := [zoom] }

/-- Error message of `switchLayout` when no layout is active. -/
def activeRequiredMsg : String :=
  "This requires the diff layout to be active"

/-- Error message of `switchLayout` on a stale target. -/
def staleSituationMsg : String :=
  "The situation has changed meanwhile. Please try again."

/-- Observable effects and final state of one `switchLayout` call. -/
structure SwitchOutcome where
  errorMessages : List String
  activateCalls : List (DiffedURIs × Factory)
  finalState : ManagerState
deriving DecidableEq

/-- The interactive quick-pick branch of `switchLayout`: the user either
dismisses the pick (`none`, silent return) or answers with a setting
value that is looked up in `this.factories`. -/
def pickSwitchTarget (factories : List Factory)
    (pickResult : Option String) : Option Factory :=
  match pickResult with
  | none => none
  | some p => factories.find? (fun f => f.settingValue == p)

/-- Target resolution of `switchLayout`: a string `layoutName` argument
is looked up directly; otherwise (or when the lookup fails) the user is
prompted. -/
def resolveSwitchTarget (factories : List Factory)
    (layoutName : Option String) (pickResult : Option String) : Option Factory :=
  match layoutName with
  | some s =>
    match factories.find? (fun f => f.settingValue == s) with
    | some tf => some tf
    | none => pickSwitchTarget factories pickResult
  | none => pickSwitchTarget factories pickResult

/-- Embeds `DiffLayouterManager.switchLayout`.  `layoutName` is `some s` when
the argument is a string, `none` otherwise.  Note: on a stale target
(`targetFactory === this.layouterFactory`) the source shows the error
message but does not return; it proceeds to `activateLayouter`
unconditionally (the second disjunct of the stale check is false here
because a layouter is registered in this branch). -/
def switchLayout (factories : List Factory) (st : ManagerState)
    (layoutName : Option String) (pickResult : Option String) : SwitchOutcome :=
  match st.layouter with
  | none =>
    { errorMessages := [activeRequiredMsg], activateCalls := [], finalState := st }
  | some ly =>
    match resolveSwitchTarget factories layoutName pickResult with
    | none => { errorMessages := [], activateCalls := [], finalState := st }
    | some tf =>
      { errorMessages :=
          if st.layouterFactory = some tf then [staleSituationMsg] else []
        activateCalls := [(ly.diffedURIs, tf)]
        finalState := activateLayouterState ly.diffedURIs tf }

/-- An answer to the unknown-layout-kind repair prompt of
`getLayoutFactory`; a prompt dismissal is `none` at the call site. -/
inductive RepairAnswer where
  | restore : RepairAnswer
  | once : RepairAnswer
  | cancel : RepairAnswer
deriving DecidableEq

/-- Embeds `DiffLayouterManager.getLayoutFactory`: resolve the configured
layout setting against the factory registry, prompting on an unknown
value until a valid kind is obtained or the user cancels/dismisses.
`answers` is the stream of prompt answers (an exhausted stream models a
dismissed prompt); the second component records the values written to
the layout configuration setting (the restore-default branch). -/
def getLayoutFactory (factories : List Factory) (defaultFactory : Factory) :
    JSVal → List (Option RepairAnswer) → Option Factory × List String
  | layoutSetting, [] =>
    match factories.find? (fun f => JSVal.str f.settingValue == layoutSetting) with
    | some f => (some f, [])
    | none => (none, [])
  | layoutSetting, ans :: rest =>
    match factories.find? (fun f => JSVal.str f.settingValue == layoutSetting) with
    | some f => (some f, [])
    | none =>
      match ans with
      | none => (none, [])
      | some RepairAnswer.cancel => (none, [])
      | some RepairAnswer.restore =>
        let r := getLayoutFactory factories defaultFactory
          (JSVal.str defaultFactory.settingValue) rest
        (r.1, defaultFactory.settingValue :: r.2)
      | some RepairAnswer.once =>
        getLayoutFactory factories defaultFactory
          (JSVal.str defaultFactory.settingValue) rest

/-- The no-op check at the top of `openDiffedURIs`: an active or
activating layouter already shows the same content tuple (ignoring
backups). -/
def openNoOpCheck (st : ManagerState) (uris : DiffedURIs) : Bool :=
  match st.layouter with
  | some ly => (ly.isActivating || ly.isActive) && equalsWithoutBackup uris ly.diffedURIs
  | none => false

/-- Observable effects, result and final state of one `openDiffedURIs`
call. -/
structure OpenOutcome where
  result : Bool
  finalState : ManagerState
  activateCalls : List (DiffedURIs × Factory)
  deactivateCalls : Nat
  closeEditorCalls : Nat
deriving DecidableEq

/-- Embeds `DiffLayouterManager.openDiffedURIs` (the deactivation-handler
attachment, which installs a callback without further effects here, is
omitted): no-op success on same content, abort with `false` when layout
kind resolution fails, otherwise close the active editor when requested
and activate a layouter for the tuple. -/
def openDiffedURIs (factories : List Factory) (defaultFactory : Factory)
    (st : ManagerState) (uris : DiffedURIs) (closeActiveEditor : Bool)
    (layoutSetting : JSVal) (answers : List (Option RepairAnswer)) : OpenOutcome :=
  if openNoOpCheck st uris then
    { result := true, finalState := st, activateCalls := []
      deactivateCalls := 0, closeEditorCalls := 0 }
  else
    match (getLayoutFactory factories defaultFactory layoutSetting answers).1 with
    | none =>
      { result := false, finalState := st, activateCalls := []
        deactivateCalls := 0, closeEditorCalls := 0 }
    | some f =>
      { result := true
        finalState := activateLayouterState uris f
        activateCalls := [(uris, f)]
        deactivateCalls := if st.layouter.isSome then 1 else 0
        closeEditorCalls := if closeActiveEditor then 1 else 0 }

/-! ## ArbitraryFilesMerger -/

/-- The file-selection result consumed by `mergeArbitraryFiles`: the
four file paths and whether the merged location was validated as empty
(`validationResult?.emptyLoc === true`). -/
structure DiffSelection where
  basePath : String
  localPath : String
  remotePath : String
  mergedPath : String
  mergedEmptyLoc : Bool
deriving DecidableEq

/-- The `error` member of an `execFilePromise` result: its `code` is
absent or a number. -/
structure GitError where
  code : Option Int
deriving DecidableEq

/-- Result of the external `git merge-file` invocation. -/
structure GitResult where
  error : Option GitError
  stdout : String
  stderr : String
deriving DecidableEq

/-- Outcomes of the external steps `mergeArbitraryFiles` awaits, in
order: the interactive file selection, the git path lookup, the
`git merge-file` run, the merged-file write, and the result of
`openDiffedURIs` on success. -/
structure MergeEnv where
  selectionResult : Option DiffSelection
  gitPath : Option String
  gitResult : GitResult
  writeOk : Bool
  openResult : Bool
deriving DecidableEq

/-- Observable effects and result of one `mergeArbitraryFiles` call. -/
structure MergeOutcome where
  result : Bool
  openCalls : List DiffedURIs
  gitCalls : Nat
  errorMessages : List String
deriving DecidableEq

/-- The error test of `mergeArbitraryFiles` on the git result:
`error !== null && (error.code === undefined || error.code < 0 ||
error.code > 127)`. -/
def gitMergeFailed (r : GitResult) : Bool :=
  match r.error with
  | none => false
  | some e =>
    match e.code with
    | none => true
    | some c => decide (c < 0) || decide (c > 127)

/-- The content tuple `mergeArbitraryFiles` opens: the three readonly
inputs and the merged file (no backup). -/
def mkDiffedURIs (sel : DiffSelection) : DiffedURIs :=
  { base := sel.basePath, localSrc := sel.localPath
    remote := sel.remotePath, merged := sel.mergedPath, backup := none }

/-- Embeds `ArbitraryFilesMerger.mergeArbitraryFiles`. -/
def mergeArbitraryFiles (env : MergeEnv) : MergeOutcome :=
  match env.selectionResult with
  | none => { result := false, openCalls := [], gitCalls := 0, errorMessages := [] }
  | some sel =>
    match env.gitPath with
    | none => { result := false, openCalls := [], gitCalls := 0, errorMessages := [] }
    | some _ =>
      if sel.mergedEmptyLoc then
        if gitMergeFailed env.gitResult then
          { result := false, openCalls := [], gitCalls := 1
            errorMessages :=
              ["Error when merging files by Git: " ++ env.gitResult.stderr ++ "."] }
        else if !env.writeOk then
          { result := false, openCalls := [], gitCalls := 1, errorMessages := [] }
        else
          { result := env.openResult, openCalls := [mkDiffedURIs sel]
            gitCalls := 1, errorMessages := [] }
      else
        { result := env.openResult, openCalls := [mkDiffedURIs sel]
          gitCalls := 0, errorMessages := [] }

/-! ## Concrete sample inputs used by the witness theorems -/

/-- Two managed keys with their forced targets. -/
def sampleTargets : StorageState :=
  [("A", JSVal.bool false), ("B", JSVal.str "none")]

/-- A live configuration where key A is set and everything else unset. -/
def sampleConfig : String → JSVal :=
  fun k => if k = "A" then JSVal.bool true else JSVal.undef

/-- A settings state with no persisted snapshot. -/
def sampleEmptyState : SettingsState :=
  { config := sampleConfig, origActualStore := none, origTargetStore := none }

/-- A settings state with a persisted snapshot holding the managed key A
and an obsolete key old. -/
def sampleSnapState : SettingsState :=
  { config := fun k =>
      if k = "A" then JSVal.bool true
      else if k = "old" then JSVal.str "x" else JSVal.undef
    origActualStore := some [("old", JSVal.num 3), ("A", JSVal.bool false)]
    origTargetStore := some [("old", JSVal.str "x"), ("A", JSVal.bool true)] }

/-- A settings state whose key A was manually edited away from the
remembered forced target while overridden. -/
def sampleEditedState : SettingsState :=
  { config := fun k => if k = "A" then JSVal.str "changed" else JSVal.undef
    origActualStore := some [("A", JSVal.bool false)]
    origTargetStore := some [("A", JSVal.bool true)] }

/-- A Monitor trace: three enters, then one leave. -/
def sampleMonitorTrace : List MonitorEvent :=
  [MonitorEvent.enter 0, MonitorEvent.enter 1, MonitorEvent.enter 2, MonitorEvent.leave]

/-- The state `sampleMonitorTrace` leads to: caller 1 resumed as holder,
caller 2 still waiting. -/
def sampleMonitorFinal : MonitorState :=
  { holders := [1], waiters := [2], resumed := [1], suspendedLog := [1, 2] }

/-- Sample content tuples and factories. -/
def sampleURIs : DiffedURIs :=
  { base := "b", localSrc := "l", remote := "r", merged := "m", backup := none }

def sampleFactoryA : Factory := { settingValue := "4TransferRight" }

def sampleFactoryB : Factory := { settingValue := "3DiffToBase" }

/-- Sample merger environments: one failing at file selection, one in
which every external step succeeds. -/
def sampleMergeEnvFail : MergeEnv :=
  { selectionResult := none, gitPath := some "git"
    gitResult := { error := none, stdout := "", stderr := "" }
    writeOk := true, openResult := true }

def sampleSelection : DiffSelection :=
  { basePath := "b", localPath := "l", remotePath := "r"
    mergedPath := "m", mergedEmptyLoc := true }

def sampleMergeEnvOk : MergeEnv :=
  { selectionResult := some sampleSelection, gitPath := some "git"
    gitResult := { error := some { code := some 1 }, stdout := "out", stderr := "" }
    writeOk := true, openResult := true }

/-! ## Association-list lemmas -/

theorem objKeys_nil : objKeys [] = [] := rfl

theorem objKeys_cons (e : String × JSVal) (m : StorageState) :
    objKeys (e :: m) = e.1 :: objKeys m := rfl

theorem objKeys_append (m1 m2 : StorageState) :
    objKeys (m1 ++ m2) = objKeys m1 ++ objKeys m2 := by
  simp [objKeys]

theorem alookup_eq_none (m : StorageState) (k : String)
    (h : ¬ k ∈ objKeys m) : alookup m k = none := by
  induction m with
  | nil => rfl
  | cons e rest ih =>
    rw [objKeys_cons, List.mem_cons] at h
    push_neg at h
    rw [alookup, if_neg (fun he => h.1 he.symm)]
    exact ih h.2

theorem mem_of_alookup_eq_some (m : StorageState) (k : String) (v : JSVal)
    (h : alookup m k = some v) : k ∈ objKeys m := by
  by_contra hk
  rw [alookup_eq_none m k hk] at h
  exact Option.noConfusion h

theorem alookup_nodup_mem (m : StorageState) (e : String × JSVal)
    (hnd : (objKeys m).Nodup) (hmem : e ∈ m) : alookup m e.1 = some e.2 := by
  induction m with
  | nil => exact absurd hmem (List.not_mem_nil e)
  | cons a rest ih =>
    rw [objKeys_cons, List.nodup_cons] at hnd
    rcases List.mem_cons.mp hmem with he | he
    · subst he
      rw [alookup, if_pos rfl]
    · have hne : a.1 ≠ e.1 := by
        intro hcontr
        exact hnd.1 (hcontr ▸ List.mem_map_of_mem Prod.fst he)
      rw [alookup, if_neg hne]
      exact ih hnd.2 he

theorem alookup_mapval (g : String → JSVal) (L : StorageState) (k : String) :
    alookup (L.map (fun e => (e.1, g e.1))) k
      = if k ∈ objKeys L then some (g k) else none := by
  induction L with
  | nil => rfl
  | cons e rest ih =>
    rw [List.map_cons, alookup, objKeys_cons]
    by_cases he : e.1 = k
    · subst he
      simp
    · rw [if_neg he, ih]
      by_cases hk : k ∈ objKeys rest
      · rw [if_pos hk, if_pos (List.mem_cons_of_mem _ hk)]
      · rw [if_neg hk, if_neg]
        rw [List.mem_cons]
        push_neg
        exact ⟨fun hc => he hc.symm, hk⟩

theorem objKeys_mapval (g : String → JSVal) (L : StorageState) :
    objKeys (L.map (fun e => (e.1, g e.1))) = objKeys L := by
  simp [objKeys]

/-! ## Fold characterizations for the settings manager -/

theorem setFold_char (v : String → JSVal) (L : List String)
    (cfg : String → JSVal) (k : String) :
    (L.foldl (fun c iD => setCfg c iD (v iD)) cfg) k
      = if k ∈ L then v k else cfg k := by
  induction L generalizing cfg with
  | nil => simp
  | cons a rest ih =>
    rw [List.foldl_cons, ih]
    by_cases hk : k ∈ rest
    · rw [if_pos hk, if_pos (List.mem_cons_of_mem _ hk)]
    · rw [if_neg hk]
      by_cases hka : k = a
      · subst hka
        rw [if_pos (List.mem_cons_self k rest), setCfg, if_pos rfl]
      · rw [setCfg, if_neg hka, if_neg]
        rw [List.mem_cons]
        push_neg
        exact ⟨hka, hk⟩

theorem condSetFold_char (v tgt : String → JSVal) (L : List String)
    (hnd : L.Nodup) (cfg : String → JSVal) (k : String) :
    (L.foldl (fun c iD => if c iD = tgt iD then setCfg c iD (v iD) else c) cfg) k
      = if k ∈ L ∧ cfg k = tgt k then v k else cfg k := by
  induction L generalizing cfg with
  | nil => simp
  | cons a rest ih =>
    rw [List.nodup_cons] at hnd
    rw [List.foldl_cons, ih hnd.2]
    have hcfg1 : ∀ k2, k2 ≠ a →
        (if cfg a = tgt a then setCfg cfg a (v a) else cfg) k2 = cfg k2 := by
      intro k2 hk2
      by_cases hc : cfg a = tgt a
      · rw [if_pos hc, setCfg, if_neg hk2]
      · rw [if_neg hc]
    by_cases hk : k ∈ rest
    · have hka : k ≠ a := fun hc => hnd.1 (hc ▸ hk)
      rw [hcfg1 k hka]
      by_cases hc : cfg k = tgt k
      · rw [if_pos ⟨hk, hc⟩, if_pos ⟨List.mem_cons_of_mem _ hk, hc⟩]
      · rw [if_neg (fun hx => hc hx.2), if_neg (fun hx => hc hx.2)]
    · by_cases hka : k = a
      · subst hka
        rw [if_neg (fun hx => hk hx.1)]
        by_cases hc : cfg k = tgt k
        · rw [if_pos hc, setCfg, if_pos rfl, if_pos ⟨List.mem_cons_self k rest, hc⟩]
        · rw [if_neg hc, if_neg (fun hx => hc hx.2)]
      · rw [if_neg (fun hx => hk hx.1), hcfg1 k hka, if_neg]
        intro hx
        rcases List.mem_cons.mp hx.1 with hc | hc
        · exact hka hc
        · exact hk hc

theorem condSetFold_preserve (v tgt : String → JSVal) (L : List String)
    (cfg : String → JSVal) (k : String) (hne : cfg k ≠ tgt k) :
    (L.foldl (fun c iD => if c iD = tgt iD then setCfg c iD (v iD) else c) cfg) k
      = cfg k := by
  induction L generalizing cfg with
  | nil => rfl
  | cons a rest ih =>
    rw [List.foldl_cons]
    have hcfg1 : (if cfg a = tgt a then setCfg cfg a (v a) else cfg) k = cfg k := by
      by_cases hka : k = a
      · subst hka
        rw [if_neg hne]
      · by_cases hc : cfg a = tgt a
        · rw [if_pos hc, setCfg, if_neg hka]
        · rw [if_neg hc]
    rw [ih _ (by rw [hcfg1]; exact hne) |>.trans hcfg1]

theorem activate_loop_keys (oldA oldT : StorageState) :
    ∀ (ts : StorageState) (acc : (String → JSVal) × StorageState × StorageState),
    objKeys (ts.foldl (activateStep oldA oldT) acc).2.1
      = objKeys acc.2.1 ++ objKeys ts
    ∧ objKeys (ts.foldl (activateStep oldA oldT) acc).2.2
      = objKeys acc.2.2 ++ objKeys ts := by
  intro ts
  induction ts with
  | nil => intro acc; simp [objKeys]
  | cons e rest ih =>
    intro acc
    rw [List.foldl_cons]
    rcases ih (activateStep oldA oldT acc e) with ⟨h1, h2⟩
    have hsA : (activateStep oldA oldT acc e).2.1
        = acc.2.1 ++ [(e.1, if acc.1 e.1 = jsIdx oldT e.1
                            then jsIdx oldA e.1 else acc.1 e.1)] := rfl
    have hsT : (activateStep oldA oldT acc e).2.2 = acc.2.2 ++ [(e.1, e.2)] := rfl
    constructor
    · rw [h1, hsA, objKeys_append, List.append_assoc]
      rfl
    · rw [h2, hsT, objKeys_append, List.append_assoc]
      rfl

theorem activate_loop_cfg_untouched (oldA oldT : StorageState) :
    ∀ (ts : StorageState) (acc : (String → JSVal) × StorageState × StorageState)
      (k : String), ¬ k ∈ objKeys ts →
    (ts.foldl (activateStep oldA oldT) acc).1 k = acc.1 k := by
  intro ts
  induction ts with
  | nil => intro acc k _; rfl
  | cons e rest ih =>
    intro acc k hk
    rw [objKeys_cons, List.mem_cons] at hk
    push_neg at hk
    rw [List.foldl_cons, ih _ k hk.2]
    show (if acc.1 e.1 ≠ e.2 then setCfg acc.1 e.1 e.2 else acc.1) k = acc.1 k
    by_cases hc : acc.1 e.1 ≠ e.2
    · rw [if_pos hc, setCfg, if_neg hk.1]
    · rw [if_neg hc]

theorem activate_loop_char (oldA oldT : StorageState) :
    ∀ (ts : StorageState), (objKeys ts).Nodup →
    ∀ (acc : (String → JSVal) × StorageState × StorageState),
    (ts.foldl (activateStep oldA oldT) acc).2.1
      = acc.2.1 ++ ts.map (fun e => (e.1,
          if acc.1 e.1 = jsIdx oldT e.1 then jsIdx oldA e.1 else acc.1 e.1))
    ∧ (ts.foldl (activateStep oldA oldT) acc).2.2 = acc.2.2 ++ ts
    ∧ ∀ k, (ts.foldl (activateStep oldA oldT) acc).1 k
        = (alookup ts k).getD (acc.1 k) := by
  intro ts
  induction ts with
  | nil =>
    intro _ acc
    refine ⟨by simp, by simp, fun k => ?_⟩
    rfl
  | cons e rest ih =>
    obtain ⟨ek, ev⟩ := e
    intro hnd acc
    rw [objKeys_cons, List.nodup_cons] at hnd
    rcases ih hnd.2 (activateStep oldA oldT acc (ek, ev)) with ⟨ih1, ih2, ih3⟩
    have hsA : (activateStep oldA oldT acc (ek, ev)).2.1
        = acc.2.1 ++ [(ek, if acc.1 ek = jsIdx oldT ek
                           then jsIdx oldA ek else acc.1 ek)] := rfl
    have hsT : (activateStep oldA oldT acc (ek, ev)).2.2
        = acc.2.2 ++ [(ek, ev)] := rfl
    have hcfg1 : ∀ k2, (activateStep oldA oldT acc (ek, ev)).1 k2
        = if k2 = ek then ev else acc.1 k2 := by
      intro k2
      show (if acc.1 ek ≠ ev then setCfg acc.1 ek ev else acc.1) k2 = _
      by_cases hc : acc.1 ek = ev
      · rw [if_neg (not_not_intro hc)]
        by_cases hk2 : k2 = ek
        · rw [if_pos hk2, hk2, hc]
        · rw [if_neg hk2]
      · rw [if_pos hc, setCfg]
    refine ⟨?_, ?_, ?_⟩
    · rw [List.foldl_cons, ih1, hsA, List.append_assoc, List.singleton_append,
        List.map_cons]
      congr 1
      congr 1
      refine List.map_congr_left ?_
      intro e2 he2
      have hne : e2.1 ≠ ek := by
        intro hc
        apply hnd.1
        rw [← hc]
        show e2.1 ∈ List.map Prod.fst rest
        exact List.mem_map_of_mem Prod.fst he2
      rw [hcfg1 e2.1, if_neg hne]
    · rw [List.foldl_cons, ih2, hsT, List.append_assoc, List.singleton_append]
    · intro k
      rw [List.foldl_cons, ih3 k]
      by_cases hk : ek = k
      · subst hk
        rw [alookup_eq_none rest ek hnd.1, alookup, if_pos rfl]
        rw [hcfg1 ek, if_pos rfl]
        rfl
      · rw [alookup, if_neg hk]
        cases halk : alookup rest k with
        | some tv => rfl
        | none =>
          rw [Option.getD_none, Option.getD_none, hcfg1 k,
            if_neg (fun hc => hk hc.symm)]

theorem obsFold_char (oldA : StorageState) (L : List String)
    (cfg : String → JSVal) (k : String) :
    (L.foldl (fun c iD => setCfg c iD (jsIdx oldA iD)) cfg) k
      = if k ∈ L then jsIdx oldA k else cfg k :=
  setFold_char (fun iD => jsIdx oldA iD) L cfg k

theorem resetFold_char (origA origT : StorageState)
    (hnd : (objKeys origA).Nodup) (cfg : String → JSVal) (k : String) :
    ((objKeys origA).foldl
      (fun c iD => if c iD = jsIdx origT iD then setCfg c iD (jsIdx origA iD) else c)
      cfg) k
      = if k ∈ objKeys origA ∧ cfg k = jsIdx origT k
        then jsIdx origA k else cfg k :=
  condSetFold_char (fun iD => jsIdx origA iD) (fun iD => jsIdx origT iD)
    (objKeys origA) hnd cfg k

theorem resetFold_preserve (origA origT : StorageState)
    (cfg : String → JSVal) (k : String) (hne : cfg k ≠ jsIdx origT k) :
    ((objKeys origA).foldl
      (fun c iD => if c iD = jsIdx origT iD then setCfg c iD (jsIdx origA iD) else c)
      cfg) k = cfg k :=
  condSetFold_preserve (fun iD => jsIdx origA iD) (fun iD => jsIdx origT iD)
    (objKeys origA) cfg k hne

/-! ## Pointwise characterizations of activateSettings and resetSettings -/

theorem activateSettings_origTarget (ts : StorageState) (s : SettingsState)
    (hnd : (objKeys ts).Nodup) :
    (activateSettings ts s).origTargetStore = some ts := by
  show some (ts.foldl (activateStep (getStorageState s.origActualStore)
    (getStorageState s.origTargetStore)) (s.config, [], [])).2.2 = some ts
  rw [(activate_loop_char _ _ ts hnd (s.config, [], [])).2.1]
  rfl

theorem activateSettings_origActual (ts : StorageState) (s : SettingsState)
    (hnd : (objKeys ts).Nodup) :
    (activateSettings ts s).origActualStore
      = some (ts.map (fun e => (e.1,
          if s.config e.1 = jsIdx (getStorageState s.origTargetStore) e.1
          then jsIdx (getStorageState s.origActualStore) e.1
          else s.config e.1))) := by
  show some (ts.foldl (activateStep (getStorageState s.origActualStore)
    (getStorageState s.origTargetStore)) (s.config, [], [])).2.1 = _
  rw [(activate_loop_char _ _ ts hnd (s.config, [], [])).1]
  rfl

theorem activateSettings_config (ts : StorageState) (s : SettingsState)
    (hnd : (objKeys ts).Nodup) (k : String) :
    (activateSettings ts s).config k
      = (alookup ts k).getD
          (if k ∈ obsoleteSettingKeys (getStorageState s.origActualStore) (objKeys ts)
           then jsIdx (getStorageState s.origActualStore) k
           else s.config k) := by
  show ((obsoleteSettingKeys (getStorageState s.origActualStore) (objKeys ts)).foldl
      (fun c iD => setCfg c iD (jsIdx (getStorageState s.origActualStore) iD))
      (ts.foldl (activateStep (getStorageState s.origActualStore)
        (getStorageState s.origTargetStore)) (s.config, [], [])).1) k = _
  rw [obsFold_char, (activate_loop_char _ _ ts hnd (s.config, [], [])).2.2 k]
  cases halk : alookup ts k with
  | some tv =>
    have hmem := mem_of_alookup_eq_some ts k tv halk
    have hnotobs : ¬ k ∈ obsoleteSettingKeys (getStorageState s.origActualStore)
        (objKeys ts) := by
      intro hobs
      rw [obsoleteSettingKeys, List.mem_filter] at hobs
      have hno : ¬ k ∈ objKeys ts := by simpa using hobs.2
      exact hno hmem
    rw [if_neg hnotobs]
    rfl
  | none =>
    rfl

theorem resetSettings_config (s : SettingsState)
    (hnd : (objKeys (getStorageState s.origActualStore)).Nodup) (k : String) :
    (resetSettings s).config k
      = if k ∈ objKeys (getStorageState s.origActualStore)
           ∧ s.config k = jsIdx (getStorageState s.origTargetStore) k
        then jsIdx (getStorageState s.origActualStore) k
        else s.config k :=
  resetFold_char (getStorageState s.origActualStore)
    (getStorageState s.origTargetStore) hnd s.config k

theorem getStorageState_some (m : StorageState) : getStorageState (some m) = m := rfl

theorem alookup_isSome_of_mem (m : StorageState) (k : String)
    (h : k ∈ objKeys m) : ∃ tv, alookup m k = some tv := by
  induction m with
  | nil => simp [objKeys] at h
  | cons e rest ih =>
    obtain ⟨ek, ev⟩ := e
    by_cases hk : ek = k
    · exact ⟨ev, by rw [alookup, if_pos hk]⟩
    · rw [objKeys_cons, List.mem_cons] at h
      rcases h with h | h
      · exact absurd h (fun hh => hk hh.symm)
      · obtain ⟨tv, htv⟩ := ih h
        exact ⟨tv, by rw [alookup, if_neg hk, htv]⟩

theorem settingsStateExt (a b : SettingsState)
    (h1 : a.config = b.config) (h2 : a.origActualStore = b.origActualStore)
    (h3 : a.origTargetStore = b.origTargetStore) : a = b := by
  cases a
  cases b
  simp_all

/-! ## Claim theorems: settings snapshot manager -/

/-- Claim C1, counterexample: with a non-empty persisted prior snapshot
(origActual maps the managed key to true, origTarget to false, matching a
crashed session that had forced false) and the pre-activation live value
false, activateSettings followed by resetSettings sets the key to true,
not to its pre-activation value false.  The claim as stated, which
quantifies over every persisted prior snapshot, is therefore false. -/
theorem C1_roundtrip_counterexample :
    (resetSettings (activateSettings [("k", JSVal.bool false)]
      { config := fun k2 => if k2 = "k" then JSVal.bool false else JSVal.undef
        origActualStore := some [("k", JSVal.bool true)]
        origTargetStore := some [("k", JSVal.bool false)] })).config "k"
    ≠ JSVal.bool false := by decide

/-- Claim C1 (amended): when no prior snapshot is persisted (both
storage entries absent or empty), activateSettings followed immediately
by resetSettings, with no external edits in between and a
read-after-write-consistent configuration store, restores every managed
key (indeed the whole live configuration) to its pre-activation value
and leaves both persisted snapshot entries absent. -/
theorem C1_roundtrip_amended (ts : StorageState) (s : SettingsState)
    (hnd : (objKeys ts).Nodup)
    (hA : getStorageState s.origActualStore = [])
    (hT : getStorageState s.origTargetStore = []) :
    (∀ k, (resetSettings (activateSettings ts s)).config k = s.config k)
    ∧ (resetSettings (activateSettings ts s)).origActualStore = none
    ∧ (resetSettings (activateSettings ts s)).origTargetStore = none := by
  refine ⟨?_, rfl, rfl⟩
  intro k
  set s1 := activateSettings ts s with hs1
  have hA1 : s1.origActualStore = some (ts.map (fun e => (e.1, s.config e.1))) := by
    rw [hs1, activateSettings_origActual ts s hnd, hA, hT]
    congr 1
    refine List.map_congr_left ?_
    intro e _
    by_cases hc : s.config e.1 = jsIdx [] e.1 <;> simp [hc]
  have hT1 : s1.origTargetStore = some ts := by
    rw [hs1]
    exact activateSettings_origTarget ts s hnd
  have hgA1 : getStorageState s1.origActualStore
      = ts.map (fun e => (e.1, s.config e.1)) := by
    rw [hA1, getStorageState_some]
  have hgT1 : getStorageState s1.origTargetStore = ts := by
    rw [hT1, getStorageState_some]
  have hc1 : ∀ k2, s1.config k2 = (alookup ts k2).getD (s.config k2) := by
    intro k2
    rw [hs1, activateSettings_config ts s hnd k2, hA]
    have hobs : obsoleteSettingKeys [] (objKeys ts) = [] := rfl
    rw [hobs]
    simp
  have hnd1 : (objKeys (getStorageState s1.origActualStore)).Nodup := by
    rw [hgA1, objKeys_mapval]
    exact hnd
  rw [resetSettings_config s1 hnd1 k]
  by_cases hk : k ∈ objKeys ts
  · obtain ⟨tv, htv⟩ := alookup_isSome_of_mem ts k hk
    have hcfg : s1.config k = tv := by rw [hc1 k, htv, Option.getD_some]
    have hcond : s1.config k = jsIdx (getStorageState s1.origTargetStore) k := by
      rw [hcfg, hgT1, jsIdx, htv, Option.getD_some]
    have hmem1 : k ∈ objKeys (getStorageState s1.origActualStore) := by
      rw [hgA1, objKeys_mapval]
      exact hk
    rw [if_pos ⟨hmem1, hcond⟩, hgA1, jsIdx, alookup_mapval _ ts k, if_pos hk,
      Option.getD_some]
  · have hmem1 : ¬ k ∈ objKeys (getStorageState s1.origActualStore) := by
      rw [hgA1, objKeys_mapval]
      exact hk
    rw [if_neg (fun hx => hmem1 hx.1), hc1 k, alookup_eq_none ts k hk,
      Option.getD_none]

/-- Claim C1 (amended), witness at a concrete input. -/
theorem C1_roundtrip_amended_witness :
    (resetSettings (activateSettings sampleTargets sampleEmptyState)).config "A"
      = sampleEmptyState.config "A"
    ∧ (resetSettings (activateSettings sampleTargets sampleEmptyState)).origActualStore
      = none :=
  ⟨(C1_roundtrip_amended sampleTargets sampleEmptyState
      (by decide) rfl rfl).1 "A",
   (C1_roundtrip_amended sampleTargets sampleEmptyState
      (by decide) rfl rfl).2.1⟩

/-- Claim C3: for a key present in the persisted origActual snapshot
whose live configuration value at reset time differs from the remembered
forced target, resetSettings performs no configuration write for that
key: its live value is unchanged. -/
theorem C3_external_edit_preserved (s : SettingsState) (k : String)
    (hmem : k ∈ objKeys (getStorageState s.origActualStore))
    (hne : s.config k ≠ jsIdx (getStorageState s.origTargetStore) k) :
    (resetSettings s).config k = s.config k :=
  resetFold_preserve (getStorageState s.origActualStore)
    (getStorageState s.origTargetStore) s.config k hne

/-- Claim C3, witness: key A was manually edited away from the
remembered target while overridden; resetSettings leaves it alone. -/
theorem C3_external_edit_preserved_witness :
    (resetSettings sampleEditedState).config "A" = sampleEditedState.config "A" :=
  C3_external_edit_preserved sampleEditedState "A" (by decide) (by decide)

/-- Claim C4: a key present in the old persisted origActual snapshot but
absent from the current managed-key list is restored to its remembered
original live value by activateSettings, and does not appear in the
newly persisted snapshots. -/
theorem C4_obsolete_key_restored (ts : StorageState) (s : SettingsState) (k : String)
    (hmem : k ∈ objKeys (getStorageState s.origActualStore))
    (hnot : ¬ k ∈ objKeys ts) :
    (activateSettings ts s).config k = jsIdx (getStorageState s.origActualStore) k
    ∧ ¬ k ∈ objKeys (getStorageState (activateSettings ts s).origActualStore)
    ∧ ¬ k ∈ objKeys (getStorageState (activateSettings ts s).origTargetStore) := by
  have hkeys := activate_loop_keys (getStorageState s.origActualStore)
    (getStorageState s.origTargetStore) ts (s.config, [], [])
  refine ⟨?_, ?_, ?_⟩
  · show ((obsoleteSettingKeys (getStorageState s.origActualStore) (objKeys ts)).foldl
      (fun c iD => setCfg c iD (jsIdx (getStorageState s.origActualStore) iD))
      (ts.foldl (activateStep (getStorageState s.origActualStore)
        (getStorageState s.origTargetStore)) (s.config, [], [])).1) k = _
    rw [obsFold_char]
    have hk : k ∈ obsoleteSettingKeys (getStorageState s.origActualStore)
        (objKeys ts) := by
      rw [obsoleteSettingKeys, List.mem_filter]
      exact ⟨hmem, by simpa using hnot⟩
    rw [if_pos hk]
  · show ¬ k ∈ objKeys (ts.foldl (activateStep (getStorageState s.origActualStore)
      (getStorageState s.origTargetStore)) (s.config, [], [])).2.1
    rw [hkeys.1]
    simpa [objKeys] using hnot
  · show ¬ k ∈ objKeys (ts.foldl (activateStep (getStorageState s.origActualStore)
      (getStorageState s.origTargetStore)) (s.config, [], [])).2.2
    rw [hkeys.2]
    simpa [objKeys] using hnot

/-- Claim C4, witness: the obsolete key old (present in the old snapshot,
absent from the managed list) is restored and dropped from the new
snapshots. -/
theorem C4_obsolete_key_restored_witness :
    (activateSettings sampleTargets sampleSnapState).config "old"
      = jsIdx (getStorageState sampleSnapState.origActualStore) "old"
    ∧ ¬ "old" ∈ objKeys
        (getStorageState (activateSettings sampleTargets sampleSnapState).origActualStore)
    ∧ ¬ "old" ∈ objKeys
        (getStorageState (activateSettings sampleTargets sampleSnapState).origTargetStore) :=
  C4_obsolete_key_restored sampleTargets sampleSnapState "old" (by decide) (by decide)

/-- Claim C5: activateSettings is idempotent: a second call with no
external configuration change in between leaves the live configuration
and both persisted snapshot entries exactly as after the first call. -/
theorem C5_activate_idempotent (ts : StorageState) (s : SettingsState)
    (hnd : (objKeys ts).Nodup) :
    activateSettings ts (activateSettings ts s) = activateSettings ts s := by
  set s1 := activateSettings ts s with hs1
  set g : String → JSVal := fun k =>
    if s.config k = jsIdx (getStorageState s.origTargetStore) k
    then jsIdx (getStorageState s.origActualStore) k else s.config k with hg
  have hA1 : s1.origActualStore = some (ts.map (fun e => (e.1, g e.1))) := by
    rw [hs1]
    exact activateSettings_origActual ts s hnd
  have hT1 : s1.origTargetStore = some ts := by
    rw [hs1]
    exact activateSettings_origTarget ts s hnd
  have hgA1 : getStorageState s1.origActualStore = ts.map (fun e => (e.1, g e.1)) := by
    rw [hA1, getStorageState_some]
  have hgT1 : getStorageState s1.origTargetStore = ts := by
    rw [hT1, getStorageState_some]
  have hcfg1 : ∀ k, k ∈ objKeys ts → s1.config k = jsIdx ts k := by
    intro k hk
    rw [hs1, activateSettings_config ts s hnd k]
    obtain ⟨tv, htv⟩ := alookup_isSome_of_mem ts k hk
    rw [htv, Option.getD_some, jsIdx, htv, Option.getD_some]
  have h2T : (activateSettings ts s1).origTargetStore = some ts :=
    activateSettings_origTarget ts s1 hnd
  have h2A : (activateSettings ts s1).origActualStore
      = some (ts.map (fun e => (e.1, g e.1))) := by
    rw [activateSettings_origActual ts s1 hnd, hgA1, hgT1]
    congr 1
    refine List.map_congr_left ?_
    intro e he
    have hk : e.1 ∈ objKeys ts := by
      show e.1 ∈ List.map Prod.fst ts
      exact List.mem_map_of_mem Prod.fst he
    have h1 : s1.config e.1 = jsIdx ts e.1 := hcfg1 e.1 hk
    have h2 : jsIdx (ts.map (fun e2 => (e2.1, g e2.1))) e.1 = g e.1 := by
      rw [jsIdx, alookup_mapval g ts e.1, if_pos hk, Option.getD_some]
    rw [h1, if_pos rfl, h2]
  have hcfgEq : (activateSettings ts s1).config = s1.config := by
    funext k
    rw [activateSettings_config ts s1 hnd k, hgA1]
    cases halk : alookup ts k with
    | some tv =>
      have hk := mem_of_alookup_eq_some ts k tv halk
      rw [Option.getD_some, hcfg1 k hk, jsIdx, halk, Option.getD_some]
    | none =>
      rw [Option.getD_none]
      have hobs : obsoleteSettingKeys (ts.map (fun e => (e.1, g e.1)))
          (objKeys ts) = [] := by
        rw [obsoleteSettingKeys, objKeys_mapval]
        rw [List.filter_eq_nil_iff]
        intro a ha
        simpa using ha
      rw [hobs]
      simp
  exact settingsStateExt _ _ hcfgEq (h2A.trans hA1.symm) (h2T.trans hT1.symm)

/-- Claim C5, witness at a concrete state with an obsolete key. -/
theorem C5_activate_idempotent_witness :
    activateSettings sampleTargets (activateSettings sampleTargets sampleSnapState)
      = activateSettings sampleTargets sampleSnapState :=
  C5_activate_idempotent sampleTargets sampleSnapState (by decide)

/-- Claim C6: for a managed key, the newly persisted origActual value is
the old remembered original when the live value read at the start of the
call equals the previously forced target, and the freshly read live
value otherwise, regardless of whether an override write occurred. -/
theorem C6_orig_value_determination (ts : StorageState) (s : SettingsState)
    (k : String) (hnd : (objKeys ts).Nodup) (hmem : k ∈ objKeys ts) :
    jsIdx (getStorageState (activateSettings ts s).origActualStore) k
      = if s.config k = jsIdx (getStorageState s.origTargetStore) k
        then jsIdx (getStorageState s.origActualStore) k
        else s.config k := by
  have hmap := alookup_mapval (fun k2 =>
    if s.config k2 = jsIdx (getStorageState s.origTargetStore) k2
    then jsIdx (getStorageState s.origActualStore) k2 else s.config k2) ts k
  rw [activateSettings_origActual ts s hnd, getStorageState_some, jsIdx,
    hmap, if_pos hmem, Option.getD_some]

/-- Claim C6, witness: key A, whose live value true equals the old
forced target, keeps the old remembered original false. -/
theorem C6_orig_value_determination_witness :
    jsIdx (getStorageState
      (activateSettings sampleTargets sampleSnapState).origActualStore) "A"
      = if sampleSnapState.config "A"
           = jsIdx (getStorageState sampleSnapState.origTargetStore) "A"
        then jsIdx (getStorageState sampleSnapState.origActualStore) "A"
        else sampleSnapState.config "A" :=
  C6_orig_value_determination sampleTargets sampleSnapState "A" (by decide) (by decide)

/-! ## Claim theorems: Monitor -/

theorem monitorStep_inv (s s2 : MonitorState) (e : MonitorEvent)
    (h1 : s.holders.length ≤ 1)
    (h2 : s.suspendedLog = s.resumed ++ s.waiters)
    (hs : monitorStep s e = some s2) :
    s2.holders.length ≤ 1 ∧ s2.suspendedLog = s2.resumed ++ s2.waiters := by
  cases e with
  | enter tid =>
    rw [monitorStep] at hs
    by_cases hre : tid ∈ s.holders ∨ tid ∈ s.waiters
    · rw [if_pos hre] at hs
      exact Option.noConfusion hs
    · rw [if_neg hre] at hs
      by_cases hfree : s.holders.isEmpty
      · rw [if_pos hfree] at hs
        have hnil : s.holders = [] := List.isEmpty_iff.mp hfree
        injection hs with hs2
        rw [← hs2]
        refine ⟨?_, ?_⟩
        · show (s.holders ++ [tid]).length ≤ 1
          rw [hnil]
          simp
        · show s.suspendedLog = s.resumed ++ s.waiters
          exact h2
      · rw [if_neg hfree] at hs
        injection hs with hs2
        rw [← hs2]
        refine ⟨?_, ?_⟩
        · show s.holders.length ≤ 1
          exact h1
        · show s.suspendedLog ++ [tid] = s.resumed ++ (s.waiters ++ [tid])
          rw [h2, List.append_assoc]
  | leave =>
    rw [monitorStep] at hs
    cases hh : s.holders with
    | nil =>
      rw [hh] at hs
      exact Option.noConfusion hs
    | cons hd tl =>
      rw [hh] at hs
      cases hw : s.waiters with
      | nil =>
        rw [hw] at hs
        injection hs with hs2
        rw [← hs2]
        refine ⟨by simp, ?_⟩
        show s.suspendedLog = s.resumed ++ ([] : List Nat)
        rw [List.append_nil, h2, hw, List.append_nil]
      | cons t rest =>
        rw [hw] at hs
        injection hs with hs2
        rw [← hs2]
        refine ⟨by simp, ?_⟩
        show s.suspendedLog = (s.resumed ++ [t]) ++ rest
        rw [h2, hw, List.append_assoc, List.singleton_append]

theorem monitorRunFrom_inv (evs : List MonitorEvent) :
    ∀ (s s2 : MonitorState),
    s.holders.length ≤ 1 → s.suspendedLog = s.resumed ++ s.waiters →
    monitorRunFrom s evs = some s2 →
    s2.holders.length ≤ 1 ∧ s2.suspendedLog = s2.resumed ++ s2.waiters := by
  induction evs with
  | nil =>
    intro s s2 h1 h2 hr
    rw [monitorRunFrom] at hr
    injection hr with hr2
    rw [← hr2]
    exact ⟨h1, h2⟩
  | cons e rest ih =>
    intro s s2 h1 h2 hr
    rw [monitorRunFrom] at hr
    cases hstep : monitorStep s e with
    | none =>
      rw [hstep] at hr
      exact Option.noConfusion hr
    | some smid =>
      rw [hstep] at hr
      have hmid := monitorStep_inv s smid e h1 h2 hstep
      exact ih smid s2 hmid.1 hmid.2 hr

/-- Claim C2: along every legal Monitor trace (no re-entrancy violation,
every leave matched by a holder), at most one caller is inside the
critical section at any time, someoneIsWaiting is true exactly when some
enter call is suspended, and the resumption history is a prefix of the
suspension history in submission order (suspendedLog = resumed followed
by the still-pending waiters, so waiters resume in FIFO order). -/
theorem C2_monitor_invariants (evs : List MonitorEvent) (s : MonitorState)
    (h : monitorRun evs = some s) :
    s.holders.length ≤ 1
    ∧ (someoneIsWaiting s = true ↔ s.waiters ≠ [])
    ∧ s.suspendedLog = s.resumed ++ s.waiters := by
  have hinv := monitorRunFrom_inv evs monitorInit s (by simp [monitorInit])
    (by simp [monitorInit]) h
  refine ⟨hinv.1, ?_, hinv.2⟩
  rw [someoneIsWaiting]
  simp [List.isEmpty_iff]

/-- Claim C2, witness: three enters then a leave; caller 1 is resumed in
submission order, caller 2 still waits. -/
theorem C2_monitor_invariants_witness :
    sampleMonitorFinal.holders.length ≤ 1
    ∧ (someoneIsWaiting sampleMonitorFinal = true ↔ sampleMonitorFinal.waiters ≠ [])
    ∧ sampleMonitorFinal.suspendedLog
      = sampleMonitorFinal.resumed ++ sampleMonitorFinal.waiters :=
  C2_monitor_invariants sampleMonitorTrace sampleMonitorFinal (by decide)

/-! ## Claim theorems: DiffLayouterManager and ArbitraryFilesMerger -/

/-- Claim C7: a zoom request finding someoneIsWaiting true at entry is
dropped silently (no error message, no setLayout call, nothing queued);
with no waiter and no active session it fails visibly with an error
message and no layout change; otherwise the session receives setLayout
with the requested zoom. -/
theorem C7_zoom_load_shedding (Zm : Type) (m : MonitorState)
    (layouter : Option Layouter) (zoom : Zm) :
    (someoneIsWaiting m = true →
      handleWasZoomRequested Zm m layouter zoom
        = { errorMessages := [], setLayoutCalls := [] })
    ∧ (someoneIsWaiting m = false → layouterIsActive layouter = false →
      handleWasZoomRequested Zm m layouter zoom
        = { errorMessages := [zoomActiveRequiredMsg], setLayoutCalls := [] })
    ∧ (someoneIsWaiting m = false → layouterIsActive layouter = true →
      handleWasZoomRequested Zm m layouter zoom
        = { errorMessages := [], setLayoutCalls := [zoom] }) := by
  refine ⟨?_, ?_, ?_⟩
  · intro hw
    rw [handleWasZoomRequested, if_pos hw]
  · intro hw ha
    rw [handleWasZoomRequested, hw, ha]
    rfl
  · intro hw ha
    rw [handleWasZoomRequested, hw, ha]
    rfl

/-- Claim C7, witness: the three cases at concrete inputs. -/
theorem C7_zoom_load_shedding_witness :
    handleWasZoomRequested Nat
      { holders := [0], waiters := [5], resumed := [], suspendedLog := [5] }
      none 7 = { errorMessages := [], setLayoutCalls := [] }
    ∧ handleWasZoomRequested Nat monitorInit none 7
      = { errorMessages := [zoomActiveRequiredMsg], setLayoutCalls := [] }
    ∧ handleWasZoomRequested Nat monitorInit
      (some { isActivating := false, isActive := true, diffedURIs := sampleURIs }) 7
      = { errorMessages := [], setLayoutCalls := [7] } :=
  ⟨(C7_zoom_load_shedding Nat
      { holders := [0], waiters := [5], resumed := [], suspendedLog := [5] }
      none 7).1 rfl,
   (C7_zoom_load_shedding Nat monitorInit none 7).2.1 rfl rfl,
   (C7_zoom_load_shedding Nat monitorInit
      (some { isActivating := false, isActive := true, diffedURIs := sampleURIs })
      7).2.2 rfl rfl⟩

/-- Claim C8 is wrong about the code (code bug): on a stale switch
target (the resolved factory equals the active session factory), the
source shows the advisory error message but, lacking a return, still
proceeds to activateLayouter: the session is deactivated and recreated
with the same factory instead of the operation aborting with no state
change.  Evaluated at the failing input: an active session built by
factory 4TransferRight and a switchLayout request naming
4TransferRight. -/
theorem C8_stale_switch_code_bug :
    (switchLayout [sampleFactoryA, sampleFactoryB]
      { layouter := some { isActivating := false, isActive := true
                           diffedURIs := sampleURIs }
        layouterFactory := some sampleFactoryA }
      (some "4TransferRight") none).errorMessages = [staleSituationMsg]
    ∧ (switchLayout [sampleFactoryA, sampleFactoryB]
      { layouter := some { isActivating := false, isActive := true
                           diffedURIs := sampleURIs }
        layouterFactory := some sampleFactoryA }
      (some "4TransferRight") none).activateCalls
      = [(sampleURIs, sampleFactoryA)] := by
  refine ⟨?_, ?_⟩ <;> rfl

/-- Claim C9: when the configured layout kind matches no registered
factory and the user cancels or dismisses every repair prompt, layout
kind resolution yields no factory and openDiffedURIs (reached past the
same-content no-op check) returns false with no session created,
deactivated or replaced: the manager state is exactly as before. -/
theorem C9_cancel_aborts_open (factories : List Factory) (defaultFactory : Factory)
    (st : ManagerState) (uris : DiffedURIs) (closeActive : Bool)
    (layoutSetting : JSVal) (answers : List (Option RepairAnswer))
    (hnomatch : ∀ f ∈ factories, JSVal.str f.settingValue ≠ layoutSetting)
    (hcancel : ∀ a ∈ answers, a = none ∨ a = some RepairAnswer.cancel)
    (hnoop : openNoOpCheck st uris = false) :
    (getLayoutFactory factories defaultFactory layoutSetting answers).1 = none
    ∧ openDiffedURIs factories defaultFactory st uris closeActive
        layoutSetting answers
      = { result := false, finalState := st, activateCalls := []
          deactivateCalls := 0, closeEditorCalls := 0 } := by
  have hfind : factories.find?
      (fun f => JSVal.str f.settingValue == layoutSetting) = none := by
    rw [List.find?_eq_none]
    intro f hf
    simpa using hnomatch f hf
  have hres : (getLayoutFactory factories defaultFactory layoutSetting answers).1
      = none := by
    cases answers with
    | nil =>
      simp only [getLayoutFactory]
      rw [hfind]
    | cons a rest =>
      simp only [getLayoutFactory]
      rw [hfind]
      rcases hcancel a (List.mem_cons_self a rest) with ha | ha
      · rw [ha]
      · rw [ha]
  refine ⟨hres, ?_⟩
  rw [openDiffedURIs, hnoop, hres]
  rfl

/-- Claim C9, witness: a single cancel answer on an unknown configured
kind; the open request aborts with the state untouched. -/
theorem C9_cancel_aborts_open_witness :
    (getLayoutFactory [sampleFactoryA] sampleFactoryA (JSVal.str "bogus")
      [some RepairAnswer.cancel]).1 = none
    ∧ openDiffedURIs [sampleFactoryA] sampleFactoryA
        { layouter := none, layouterFactory := none } sampleURIs false
        (JSVal.str "bogus") [some RepairAnswer.cancel]
      = { result := false
          finalState := { layouter := none, layouterFactory := none }
          activateCalls := [], deactivateCalls := 0, closeEditorCalls := 0 } :=
  C9_cancel_aborts_open [sampleFactoryA] sampleFactoryA
    { layouter := none, layouterFactory := none } sampleURIs false
    (JSVal.str "bogus") [some RepairAnswer.cancel]
    (by decide) (by decide) (by decide)

/-- Claim C10: mergeArbitraryFiles returns false and never opens a diff
layout when the file selection is cancelled, no git path is found, the
git merge-file error has an absent, negative or greater-than-127 code,
or the merged-file write fails; when every required step succeeds it
opens the diffed URIs and returns that call result. -/
theorem C10_merge_preconditions (env : MergeEnv) :
    ((env.selectionResult = none ∨ env.gitPath = none
      ∨ (∃ sel, env.selectionResult = some sel ∧ sel.mergedEmptyLoc = true
          ∧ (gitMergeFailed env.gitResult = true ∨ env.writeOk = false))) →
      (mergeArbitraryFiles env).result = false
      ∧ (mergeArbitraryFiles env).openCalls = [])
    ∧ (∀ sel, env.selectionResult = some sel → env.gitPath.isSome = true →
      (sel.mergedEmptyLoc = true →
        gitMergeFailed env.gitResult = false ∧ env.writeOk = true) →
      (mergeArbitraryFiles env).openCalls = [mkDiffedURIs sel]
      ∧ (mergeArbitraryFiles env).result = env.openResult) := by
  obtain ⟨osel, ogit, gres, wok, ores⟩ := env
  constructor
  · intro hfail
    cases osel with
    | none => exact ⟨rfl, rfl⟩
    | some sel =>
      cases ogit with
      | none => exact ⟨rfl, rfl⟩
      | some gp =>
        rcases hfail with h | h | h
        · exact Option.noConfusion h
        · exact Option.noConfusion h
        · obtain ⟨sel2, hsel2, hempty0, hrest⟩ := h
          have hx : some sel = some sel2 := hsel2
          injection hx with hxe
          subst hxe
          have hempty : sel.mergedEmptyLoc = true := hempty0
          rcases hrest with h | h
          · have hg2 : gitMergeFailed gres = true := h
            simp [mergeArbitraryFiles, hempty, hg2]
          · have hw2 : wok = false := h
            by_cases hg : gitMergeFailed gres
            · simp [mergeArbitraryFiles, hempty, hg]
            · simp [mergeArbitraryFiles, hempty, hg, hw2]
  · intro sel hsel hgit hsucc
    have hosel : osel = some sel := hsel
    subst hosel
    cases ogit with
    | none => exact Bool.noConfusion hgit
    | some gp =>
      by_cases hempty : sel.mergedEmptyLoc
      · obtain ⟨hg, hw⟩ := hsucc hempty
        have hg2 : gitMergeFailed gres = false := hg
        have hw2 : wok = true := hw
        simp [mergeArbitraryFiles, hempty, hg2, hw2]
      · simp [mergeArbitraryFiles, hempty]

/-- Claim C10, witness: a cancelled selection yields false with no open
call; a fully successful run opens the selected tuple and returns the
openDiffedURIs result. -/
theorem C10_merge_preconditions_witness :
    ((mergeArbitraryFiles sampleMergeEnvFail).result = false
      ∧ (mergeArbitraryFiles sampleMergeEnvFail).openCalls = [])
    ∧ ((mergeArbitraryFiles sampleMergeEnvOk).openCalls
        = [mkDiffedURIs sampleSelection]
      ∧ (mergeArbitraryFiles sampleMergeEnvOk).result
        = sampleMergeEnvOk.openResult) :=
  ⟨(C10_merge_preconditions sampleMergeEnvFail).1 (Or.inl rfl),
   (C10_merge_preconditions sampleMergeEnvOk).2 sampleSelection rfl rfl
     (fun _ => ⟨by decide, rfl⟩)⟩
